import Mathlib

/-!
Verification development for the idea-screening web app in `app.py`.

The file shallowly embeds the app's core logic in Lean:

* the rule-based feasibility pre-screen `_rule_check` (app.py lines 62-84),
* the submission validation and pipeline entry of the generate handler
  (app.py lines 254-260),
* the OpenAI call wrapper `_call_openai` (app.py lines 105-128),
* the two-stage JSON parsing of the model reply (app.py lines 313-325),
* the renderer's default-substituting accessors and the code-fence
  stripping of snippet code (app.py lines 332-414),
* the uploaded-file text decoding `_read_file_to_text` (app.py lines 86-103),
* the admin gate `_is_admin_link` and the admin login form
  (app.py lines 131-144 and 421-430).

Python floats are modelled as exact rationals (ℚ); Python regex searches
over alternations of literal phrases are modelled as case-insensitive
substring tests; Python byte strings are lists of naturals below 256.
-/

/- ===== Rule engine: `_rule_check` (app.py 62-84) ===== -/

/-- Case-insensitive lowering of a character list.  Models Python
`re.IGNORECASE`; `Char.toLower` lowers ASCII letters and leaves Korean
characters unchanged, exactly as case folding acts on the rule literals. -/
def toLowerList (cs : List Char) : List Char := cs.map Char.toLower

/-- Does `p` occur as the leading segment of `s`? -/
def startsB : List Char → List Char → Bool
  | [], _ => true
  | _ :: _, [] => false
  | p :: ps, c :: cs => (p == c) && startsB ps cs

/-- Does `pat` occur as a contiguous substring of `s`? -/
def subB (pat : List Char) : List Char → Bool
  | [] => pat.isEmpty
  | c :: cs => startsB pat (c :: cs) || subB pat cs

/-- Model of `re.search(pat, text, re.I)` where `pat` is an alternation of
literal phrases, as every pattern in `_rule_check` is: the search succeeds
iff some alternative occurs in the text, compared case-insensitively. -/
def reSearchCI (alts : List String) (text : String) : Bool :=
  alts.any fun a => subB (toLowerList a.data) (toLowerList text.data)

/-- The DISALLOWED table of `_rule_check` (app.py 64-70); each regex
alternation is kept as its list of literal alternatives. -/
def DISALLOWED : List (String × List String) :=
  [("로컬 프로그램 실행/OS 접근", ["exe", "msi", "레지스트리", "로컬 프로그램", "시스템 파일"]),
   ("지속 실시간 소켓 서버", ["웹소켓 서버", "소켓 상시"]),
   ("하드웨어 직접 제어", ["시리얼포트", "GPIO", "블루투스 장치 제어", "라즈베리파이"]),
   ("대용량 미디어 처리", ["영상 인코딩", "STT 실시간 대규모", "오디오 실시간 편집"]),
   ("장시간 동기 작업", ["무한 루프", "24시간 상시 실행", "항시 구동"])]

/-- The CAUTION table of `_rule_check` (app.py 71-75). -/
def CAUTION : List (String × List String) :=
  [("대규모 크롤링", ["대량 크롤링", "수천 페이지"]),
   ("외부 OAuth 복잡", ["카카오", "네이버", "슬랙", "노션 OAuth"]),
   ("대량 메일/알림", ["수천명 메일", "대량 푸시"])]

/-- Result record of `_rule_check` (app.py 84). -/
structure RuleCheckResult where
  score : ℚ
  violations : List String
  cautions : List String
deriving DecidableEq

/-- The `viol` list of `_rule_check`: names of DISALLOWED categories whose
pattern matches, in table order, each appended at most once (app.py 76-78). -/
def violationsOf (text : String) : List String :=
  (DISALLOWED.filter fun pr => reSearchCI pr.2 text).map Prod.fst

/-- The `caut` list of `_rule_check` (app.py 79-80). -/
def cautionsOf (text : String) : List String :=
  (CAUTION.filter fun pr => reSearchCI pr.2 text).map Prod.fst

/-- `_rule_check` (app.py 62-84): score starts at 0.8, loses a flat 0.3 if
any violation matched (`0.3*bool(viol)`), loses 0.1 per matched caution,
and is clamped into [0,1] by `max(0.0, min(1.0, score))`. -/
def ruleCheck (text : String) : RuleCheckResult :=
  { score := max 0 (min 1 (0.8 - 0.3 * (if violationsOf text = [] then 0 else 1)
      - 0.1 * ((cautionsOf text).length : ℚ))),
    violations := violationsOf text,
    cautions := cautionsOf text }

/- ===== Submission validation and pipeline entry (app.py 254-260) ===== -/

/-- The `idea_block` f-string assembled by the generate handler
(app.py 259). -/
def ideaBlock (title desc users features : String) : String :=
  "제목: " ++ title ++ "\n설명: " ++ desc ++ "\n주 사용자: " ++ users
    ++ "\n기능:\n" ++ features

/-- The validation and first pipeline stage of the generate handler
(app.py 254-260): `if not title or not users or not features:` shows a
warning and stops (`none`, no pipeline stage runs); otherwise the rule
check runs on the idea block.  An empty Python string is the only falsy
string. -/
def doGenerateStep (title users desc features : String) : Option RuleCheckResult :=
  if title = "" || users = "" || features = "" then none
  else some (ruleCheck (ideaBlock title desc users features))

/- ===== Model client: `_call_openai` (app.py 105-128) ===== -/

/-- Python `str.strip()` whitespace set (ASCII part, the one relevant to
the app's strings). -/
def pySpace (c : Char) : Bool :=
  c == ' ' || c == '\t' || c == '\n' || c == '\r' || c == '\x0b' || c == '\x0c'

/-- Python `str.strip()`: drop whitespace from both ends. -/
def pyStrip (s : String) : String :=
  ⟨((s.data.dropWhile pySpace).reverse.dropWhile pySpace).reverse⟩

/-- `_call_openai` (app.py 105-128), modelled around its single network
call.  `clientOk` is `bool(client)`; `transport` is the outcome of the
`client.chat.completions.create` request: `none` for a raised exception,
`some c` for a response whose `message.content` is `c` (`Option String`
because the content field is nullable).  The result pairs the returned
value of the Python function (`None` on every error path) with the number
of network requests issued. -/
def callOpenAI (clientOk : Bool) (transport : Option (Option String)) :
    Option String × Nat :=
  if clientOk = false then (none, 0)
  else
    match transport with
    | none => (none, 1)
    | some none => (none, 1)
    | some (some content) =>
        if content = "" then (none, 1) else (some (pyStrip content), 1)

/- ===== JSON values and a model of Python `json.loads` ===== -/

/-- JSON values as produced by `json.loads`: objects are Python dicts,
kept here as duplicate-free association lists in insertion order
(duplicate keys overwrite in place, as in a dict).  Numbers are exact
rationals (Python parses them to floats); `jnan`/`jinf` cover the
non-finite constants `NaN`, `Infinity` and `-Infinity` that Python's
parser accepts. -/
inductive JVal where
  | jnull
  | jbool (b : Bool)
  | jnum (q : ℚ)
  | jnan
  | jinf (neg : Bool)
  | jstr (s : String)
  | jarr (items : List JVal)
  | jobj (entries : List (String × JVal))

/-- Python-dict insertion: overwrite in place if the key exists, else
append. -/
def dictInsert : List (String × JVal) → String → JVal → List (String × JVal)
  | [], k, v => [(k, v)]
  | (k0, v0) :: rest, k, v =>
      if k0 == k then (k0, v) :: rest else (k0, v0) :: dictInsert rest k v

/-- Python-dict lookup. -/
def dictLookup : List (String × JVal) → String → Option JVal
  | [], _ => none
  | (k0, v) :: rest, k => if k0 == k then some v else dictLookup rest k

/-- JSON whitespace as accepted by `json.loads`. -/
def jWsB (c : Char) : Bool := c == ' ' || c == '\t' || c == '\n' || c == '\r'

/-- Skip JSON whitespace. -/
def jSkip (cs : List Char) : List Char := cs.dropWhile jWsB

/-- ASCII decimal digit test. -/
def isDigitB (c : Char) : Bool := 48 ≤ c.toNat && c.toNat ≤ 57

/-- Value of a digit string. -/
def digitsVal (ds : List Char) : Nat :=
  ds.foldl (fun a c => a * 10 + (c.toNat - 48)) 0

/-- Integer part of a JSON number: `0` or a nonzero digit followed by
digits (leading zeros are not absorbed, as in the `json` grammar). -/
def pIntPart (cs : List Char) : Option (Nat × List Char) :=
  match cs with
  | c :: rest =>
      if c == '0' then some (0, rest)
      else if isDigitB c then
        let ds := rest.takeWhile isDigitB
        some (digitsVal (c :: ds), rest.drop ds.length)
      else none
  | [] => none

/-- Fraction part `.digits` of a JSON number, as a rational in [0,1). -/
def pFrac (cs : List Char) : Option (ℚ × List Char) :=
  match cs with
  | '.' :: rest =>
      let ds := rest.takeWhile isDigitB
      if ds.length == 0 then none
      else some ((digitsVal ds : ℚ) / ((10 ^ ds.length : ℕ) : ℚ), rest.drop ds.length)
  | _ => none

/-- Exponent part `[eE][+-]?digits` of a JSON number. -/
def pExp (cs : List Char) : Option (Int × List Char) :=
  match cs with
  | e :: rest =>
      if e == 'e' || e == 'E' then
        let sr : Int × List Char :=
          match rest with
          | '-' :: r => (-1, r)
          | '+' :: r => (1, r)
          | r => (1, r)
        let ds := sr.2.takeWhile isDigitB
        if ds.length == 0 then none
        else some (sr.1 * (digitsVal ds : Int), sr.2.drop ds.length)
      else none
  | [] => none

/-- A JSON number per the `json.loads` grammar
`-?(0|[1-9][0-9]*)(\.[0-9]+)?([eE][+-]?[0-9]+)?`, evaluated exactly. -/
def pNum (cs : List Char) : Option (ℚ × List Char) :=
  let sgn : Bool × List Char :=
    match cs with
    | '-' :: r => (true, r)
    | r => (false, r)
  match pIntPart sgn.2 with
  | some (ip, r1) =>
      let fr : ℚ × List Char :=
        match pFrac r1 with
        | some (f, r) => (f, r)
        | none => (0, r1)
      let ex : Int × List Char :=
        match pExp fr.2 with
        | some (e, r) => (e, r)
        | none => (0, fr.2)
      let scale : ℚ :=
        if 0 ≤ ex.1 then ((10 ^ ex.1.toNat : ℕ) : ℚ)
        else 1 / ((10 ^ (-ex.1).toNat : ℕ) : ℚ)
      let mag : ℚ := ((ip : ℚ) + fr.1) * scale
      some (if sgn.1 then -mag else mag, ex.2)
  | none => none

/-- Hexadecimal digit value. -/
def hexVal (c : Char) : Option Nat :=
  let n := c.toNat
  if 48 ≤ n && n ≤ 57 then some (n - 48)
  else if 65 ≤ n && n ≤ 70 then some (n - 55)
  else if 97 ≤ n && n ≤ 102 then some (n - 87)
  else none

/-- Body of a JSON string after the opening quote, with the escape set of
`json.loads` (strict mode: raw control characters are rejected).  `\uXXXX`
surrogate pairs are combined; a lone surrogate — which Python would keep
as an unpaired code unit, a value a Lean `Char` cannot carry — is mapped
through `Char.ofNat`'s fallback, a corner no theorem below touches. -/
def pStr : Nat → List Char → List Char → Option (List Char × List Char)
  | 0, _, _ => none
  | fuel + 1, acc, cs =>
    match cs with
    | [] => none
    | '"' :: rest => some (acc.reverse, rest)
    | '\\' :: esc =>
      match esc with
      | 'u' :: h1 :: h2 :: h3 :: h4 :: rest =>
        match hexVal h1, hexVal h2, hexVal h3, hexVal h4 with
        | some a, some b, some c, some d =>
          let n := a * 4096 + b * 256 + c * 16 + d
          if 55296 ≤ n && n ≤ 56319 then
            match rest with
            | '\\' :: 'u' :: g1 :: g2 :: g3 :: g4 :: rest2 =>
              match hexVal g1, hexVal g2, hexVal g3, hexVal g4 with
              | some a2, some b2, some c2, some d2 =>
                let m := a2 * 4096 + b2 * 256 + c2 * 16 + d2
                if 56320 ≤ m && m ≤ 57343 then
                  pStr fuel (Char.ofNat (65536 + (n - 55296) * 1024 + (m - 56320)) :: acc) rest2
                else pStr fuel (Char.ofNat n :: acc) rest
              | _, _, _, _ => pStr fuel (Char.ofNat n :: acc) rest
            | _ => pStr fuel (Char.ofNat n :: acc) rest
          else pStr fuel (Char.ofNat n :: acc) rest
        | _, _, _, _ => none
      | c :: rest =>
        if c == '"' then pStr fuel ('"' :: acc) rest
        else if c == '\\' then pStr fuel ('\\' :: acc) rest
        else if c == '/' then pStr fuel ('/' :: acc) rest
        else if c == 'b' then pStr fuel ('\x08' :: acc) rest
        else if c == 'f' then pStr fuel ('\x0c' :: acc) rest
        else if c == 'n' then pStr fuel ('\n' :: acc) rest
        else if c == 'r' then pStr fuel ('\r' :: acc) rest
        else if c == 't' then pStr fuel ('\t' :: acc) rest
        else none
      | [] => none
    | c :: rest =>
      if c.toNat ≤ 31 then none
      else pStr fuel (c :: acc) rest

mutual

/-- A JSON value, recursive-descent style, with explicit fuel (every
recursive call consumes fuel; the top-level entry supplies more fuel than
any input of that length can use, so the model is total like
`json.loads`). -/
def pVal : Nat → List Char → Option (JVal × List Char)
  | 0, _ => none
  | fuel + 1, cs =>
    match jSkip cs with
    | [] => none
    | c :: rest =>
      if c == '"' then
        match pStr (rest.length + 1) [] rest with
        | some (s, r) => some (.jstr ⟨s⟩, r)
        | none => none
      else if c == '{' then pObjStart fuel rest
      else if c == '[' then pArrStart fuel rest
      else if c == 't' then
        match rest with
        | 'r' :: 'u' :: 'e' :: r => some (.jbool true, r)
        | _ => none
      else if c == 'f' then
        match rest with
        | 'a' :: 'l' :: 's' :: 'e' :: r => some (.jbool false, r)
        | _ => none
      else if c == 'n' then
        match rest with
        | 'u' :: 'l' :: 'l' :: r => some (.jnull, r)
        | _ => none
      else if c == 'N' then
        match rest with
        | 'a' :: 'N' :: r => some (.jnan, r)
        | _ => none
      else if c == 'I' then
        match rest with
        | 'n' :: 'f' :: 'i' :: 'n' :: 'i' :: 't' :: 'y' :: r => some (.jinf false, r)
        | _ => none
      else if c == '-' then
        match rest with
        | 'I' :: 'n' :: 'f' :: 'i' :: 'n' :: 'i' :: 't' :: 'y' :: r => some (.jinf true, r)
        | _ => (pNum (c :: rest)).map fun pr => (.jnum pr.1, pr.2)
      else if isDigitB c then (pNum (c :: rest)).map fun pr => (.jnum pr.1, pr.2)
      else none

/-- After `[`: empty array or the element loop. -/
def pArrStart : Nat → List Char → Option (JVal × List Char)
  | 0, _ => none
  | fuel + 1, cs =>
    match jSkip cs with
    | ']' :: r => some (.jarr [], r)
    | _ => pArrItems fuel [] cs

/-- Array elements separated by commas, ended by `]` (no trailing
comma). -/
def pArrItems : Nat → List JVal → List Char → Option (JVal × List Char)
  | 0, _, _ => none
  | fuel + 1, acc, cs =>
    match pVal fuel cs with
    | some (v, r) =>
      match jSkip r with
      | ',' :: r2 => pArrItems fuel (v :: acc) r2
      | ']' :: r2 => some (.jarr (v :: acc).reverse, r2)
      | _ => none
    | none => none

/-- After an opening brace: empty object or the member loop. -/
def pObjStart : Nat → List Char → Option (JVal × List Char)
  | 0, _ => none
  | fuel + 1, cs =>
    match jSkip cs with
    | '}' :: r => some (.jobj [], r)
    | _ => pObjItems fuel [] cs

/-- Object members `"key": value` separated by commas, ended by a closing
brace; duplicate keys overwrite as in a Python dict. -/
def pObjItems : Nat → List (String × JVal) → List Char → Option (JVal × List Char)
  | 0, _, _ => none
  | fuel + 1, acc, cs =>
    match jSkip cs with
    | '"' :: r =>
      match pStr (r.length + 1) [] r with
      | some (k, r1) =>
        match jSkip r1 with
        | ':' :: r2 =>
          match pVal fuel r2 with
          | some (v, r3) =>
            match jSkip r3 with
            | ',' :: r4 => pObjItems fuel (dictInsert acc ⟨k⟩ v) r4
            | '}' :: r4 => some (.jobj (dictInsert acc ⟨k⟩ v), r4)
            | _ => none
          | none => none
        | _ => none
      | none => none
    | _ => none

end

/-- Model of `json.loads`: parse one value, allow surrounding whitespace,
reject trailing data.  The fuel bound `3 * length + 8` exceeds what any
input of this length can consume (each nesting level or element costs at
most three fuel units and at least one character). -/
def jsonParse (s : String) : Option JVal :=
  let cs := s.data
  match pVal (3 * cs.length + 8) cs with
  | some (v, r) => if (jSkip r).isEmpty then some v else none
  | none => none

/- ===== The two-stage parse of `do_generate` (app.py 313-325) ===== -/

/-- Index of the first occurrence of `c` in `cs`. -/
def idxOf (cs : List Char) (c : Char) : Option Nat :=
  match cs with
  | [] => none
  | x :: rest => if x == c then some 0 else (idxOf rest c).map (· + 1)

/-- Index of the last occurrence of `c` in `cs`. -/
def lastIdxOf (cs : List Char) (c : Char) : Option Nat :=
  (idxOf cs.reverse c).map (fun i => cs.length - 1 - i)

/-- Model of `re.search(r"\x7b[\s\S]*\x7d", raw)` (app.py 318): the
pattern is greedy, so a match — when one exists — runs from the first
opening brace that precedes the final closing brace (which is then the
first opening brace overall) to that final closing brace, inclusive. -/
def braceSlice (cs : List Char) : Option (List Char) :=
  match idxOf cs '{', lastIdxOf cs '}' with
  | some i, some j => if i < j then some ((cs.drop i).take (j - i + 1)) else none
  | _, _ => none

/-- Outcome of the parsing step of `do_generate` (app.py 313-325). -/
inductive ParseOutcome where
  | parsed (d : JVal)
  | unparseableReported (raw : String)
  | uncaught (raw : String)

/-- The parsing step of `do_generate` (app.py 313-325): try `json.loads`
on the whole reply; on failure search for a brace-delimited substring and,
if one exists, run `json.loads` on it — a failure of this second call is
raised inside the `except` handler and propagates uncaught
(`uncaught raw`); only when no brace substring exists does the code show
the parse-failure message together with the verbatim raw text
(`unparseableReported raw`). -/
def parseStage (raw : String) : ParseOutcome :=
  match jsonParse raw with
  | some d => .parsed d
  | none =>
    match braceSlice raw.data with
    | some sub =>
      match jsonParse ⟨sub⟩ with
      | some d => .parsed d
      | none => .uncaught raw
    | none => .unparseableReported raw

/- ===== Renderer accessors (app.py 332-414) ===== -/

/-- Python `data.get(k, default)` as the renderer uses it: defined only on
dicts (calling `.get` on any other value raises, which `none` records). -/
def pyDictGet (d : JVal) (k : String) (dflt : JVal) : Option JVal :=
  match d with
  | .jobj kvs => some ((dictLookup kvs k).getD dflt)
  | _ => none

/-- Python `float(x)` on the values the renderer can feed it: numbers pass
through, booleans become 0/1; every other case (strings, containers,
null) is left out of the model — the renderer theorems below only apply
it to the default `0.0`. -/
def pyFloat : JVal → Option ℚ
  | .jnum q => some q
  | .jbool b => some (if b then 1 else 0)
  | _ => none

/-- `float(data.get("feasibility", {}).get("score", 0.0))` (app.py 339). -/
def rendererScore (d : JVal) : Option ℚ :=
  (pyDictGet d "feasibility" (.jobj [])).bind fun fe =>
    (pyDictGet fe "score" (.jnum 0)).bind pyFloat

/-- `data.get("feasibility", {}).get("summary", "")` (app.py 351). -/
def rendererSummary (d : JVal) : Option JVal :=
  (pyDictGet d "feasibility" (.jobj [])).bind fun fe =>
    pyDictGet fe "summary" (.jstr "")

/-- `data.get("adjustments", [])` (app.py 356). -/
def rendererAdjustments (d : JVal) : Option JVal := pyDictGet d "adjustments" (.jarr [])

/-- `data.get("next_steps", [])` (app.py 366). -/
def rendererNextSteps (d : JVal) : Option JVal := pyDictGet d "next_steps" (.jarr [])

/-- `data.get("blueprint", {})` (app.py 376). -/
def rendererBlueprint (d : JVal) : Option JVal := pyDictGet d "blueprint" (.jobj [])

/-- `data.get("gas_snippets", [])` (app.py 385). -/
def rendererGasSnippets (d : JVal) : Option JVal := pyDictGet d "gas_snippets" (.jarr [])

/-- `data.get("risks", [])` (app.py 401). -/
def rendererRisks (d : JVal) : Option JVal := pyDictGet d "risks" (.jarr [])

/-- `data.get("prd", "")` (app.py 408). -/
def rendererPrd (d : JVal) : Option JVal := pyDictGet d "prd" (.jstr "")

/- ===== Fence stripping of snippet code (app.py 390-396) ===== -/

/-- ASCII letter test, the `[a-zA-Z]` class of the opening-fence regex. -/
def isAsciiAlphaB (c : Char) : Bool :=
  (65 ≤ c.toNat && c.toNat ≤ 90) || (97 ≤ c.toNat && c.toNat ≤ 122)

/-- Python `str.strip()` on a character list. -/
def pyStripList (cs : List Char) : List Char :=
  ((cs.dropWhile pySpace).reverse.dropWhile pySpace).reverse

/-- One application of `re.sub(r"^` ``` `[a-zA-Z]*\n", "", s)`: the anchored
pattern matches exactly when three backticks open the string and the
maximal run of ASCII letters after them is followed by a newline; the
match (through that newline) is deleted. -/
def fenceOpenStrip (cs : List Char) : List Char :=
  match cs with
  | '`' :: '`' :: '`' :: rest =>
    match rest.dropWhile isAsciiAlphaB with
    | '\n' :: body => body
    | _ => cs
  | _ => cs

/-- One application of `re.sub(r"\n` ``` `$", "", s)` to a string with no
trailing newline (its input was stripped): delete a final
newline-plus-three-backticks. -/
def fenceCloseStrip (cs : List Char) : List Char :=
  match cs.reverse with
  | '`' :: '`' :: '`' :: '\n' :: restRev => restRev.reverse
  | _ => cs

/-- The snippet-code cleanup of the renderer (app.py 391-394):
`code_raw.strip()`, then strip one opening fence line, then one closing
fence line. -/
def stripFences (s : String) : String :=
  ⟨fenceCloseStrip (fenceOpenStrip (pyStripList s.data))⟩

/-- `sn.get("code", "")` followed by the fence cleanup (app.py 391-394);
`.strip()` on a non-string raises, which `none` records. -/
def rendererSnippetCode (sn : JVal) : Option String :=
  (pyDictGet sn "code" (.jstr "")).bind fun v =>
    match v with
    | .jstr s => some (stripFences s)
    | _ => none

/- ===== File ingestion: `_read_file_to_text` (app.py 86-103) ===== -/

/-- UTF-8 continuation byte test. -/
def contB (b : Nat) : Bool := 128 ≤ b && b ≤ 191

/-- Valid second byte of a three-byte sequence, given its lead byte
(surrogate and overlong exclusions of a strict UTF-8 decoder). -/
def e3lead (b b1 : Nat) : Bool :=
  if b == 224 then 160 ≤ b1 && b1 ≤ 191
  else if b == 237 then 128 ≤ b1 && b1 ≤ 159
  else contB b1

/-- Valid second byte of a four-byte sequence, given its lead byte. -/
def e4lead (b b1 : Nat) : Bool :=
  if b == 240 then 144 ≤ b1 && b1 ≤ 191
  else if b == 244 then 128 ≤ b1 && b1 ≤ 143
  else contB b1

/-- Worker for `bytes.decode("utf-8", errors="ignore")`: decode one
sequence per step; on an invalid or truncated sequence, skip the offending
bytes and continue (CPython resumes at the first byte that failed
validation; a sequence truncated by the end of input is dropped).  Fuel is
the byte count, and every step consumes at least one byte. -/
def utf8Go : Nat → List Nat → List Char
  | 0, _ => []
  | _ + 1, [] => []
  | fuel + 1, b :: rest =>
    if b ≤ 127 then Char.ofNat b :: utf8Go fuel rest
    else if 194 ≤ b && b ≤ 223 then
      match rest with
      | b1 :: rest1 =>
        if contB b1 then Char.ofNat ((b - 192) * 64 + (b1 - 128)) :: utf8Go fuel rest1
        else utf8Go fuel rest
      | [] => []
    else if 224 ≤ b && b ≤ 239 then
      match rest with
      | b1 :: rest1 =>
        if e3lead b b1 then
          match rest1 with
          | b2 :: rest2 =>
            if contB b2 then
              Char.ofNat ((b - 224) * 4096 + (b1 - 128) * 64 + (b2 - 128)) :: utf8Go fuel rest2
            else utf8Go fuel rest1
          | [] => []
        else utf8Go fuel rest
      | [] => []
    else if 240 ≤ b && b ≤ 244 then
      match rest with
      | b1 :: rest1 =>
        if e4lead b b1 then
          match rest1 with
          | b2 :: rest2 =>
            if contB b2 then
              match rest2 with
              | b3 :: rest3 =>
                if contB b3 then
                  Char.ofNat ((b - 240) * 262144 + (b1 - 128) * 4096
                    + (b2 - 128) * 64 + (b3 - 128)) :: utf8Go fuel rest3
                else utf8Go fuel rest2
              | [] => []
            else utf8Go fuel rest1
          | [] => []
        else utf8Go fuel rest
      | [] => []
    else utf8Go fuel rest

/-- `data.decode("utf-8", errors="ignore")`: total — invalid bytes are
dropped, never substituted, and no exception can arise. -/
def decodeUtf8Ignore (bs : List Nat) : String := ⟨utf8Go bs.length bs⟩

/-- The `try` of the non-PDF branch (app.py 100-101): with
`errors="ignore"` the decode always succeeds, so the model always returns
a value. -/
def decodeUtf8IgnoreE (bs : List Nat) : Option String := some (decodeUtf8Ignore bs)

/-- `data.decode("cp949", errors="ignore")` (app.py 103).  The branch is
unreachable — the preceding UTF-8 decode never raises — so the cp949
table is not modelled; the theorems below prove the branch dead, and no
theorem depends on this value. -/
def decodeCp949Ignore (_bs : List Nat) : String := ""

/-- The non-PDF branch of `_read_file_to_text` (app.py 99-103): try the
ignoring UTF-8 decode, fall back to cp949 only if it raised. -/
def readFileToTextNonPdf (bs : List Nat) : String :=
  match decodeUtf8IgnoreE bs with
  | some s => s
  | none => decodeCp949Ignore bs

/-- Does `s` end with `pat`? -/
def endsB (s pat : List Char) : Bool := startsB pat.reverse s.reverse

/-- `_read_file_to_text` (app.py 86-103) with the PDF branch — a call
into the external `pypdf` collaborator — supplied as a parameter
`pdfExtract`: the lower-cased file name selects the branch. -/
def readFileToText (pdfExtract : List Nat → String) (name : String)
    (bs : List Nat) : String :=
  if endsB (toLowerList name.data) ".pdf".data then pdfExtract bs
  else readFileToTextNonPdf bs

/- ===== Admin gate (app.py 131-144, 421-430) ===== -/

/-- A value of `st.query_params.get("admin")`: a string, a list of
strings, or anything else (absent is `none` at the use site). -/
inductive QueryVal where
  | str (v : String)
  | list (vs : List String)
  | other

/-- Token extraction of `_is_admin_link` (app.py 137-143): first element
of a non-empty list value, a plain string value, else the empty string. -/
def extractAdminToken (q : Option QueryVal) : String :=
  match q with
  | some (.list (v :: _)) => v
  | some (.str v) => v
  | _ => ""

/-- `_is_admin_link` (app.py 131-144):
`bool(ADMIN_LINK_TOKEN and token and token == ADMIN_LINK_TOKEN)`. -/
def isAdminLink (adminLinkToken : String) (q : Option QueryVal) : Bool :=
  !(adminLinkToken == "") && !(extractAdminToken q == "")
    && (extractAdminToken q == adminLinkToken)

/-- The admin login submit handler (app.py 424-430) acting on
`st.session_state.is_admin`: the flag is set to true only when
`ADMIN_PASSWORD and _sha256(pwd) == _sha256(ADMIN_PASSWORD)` holds, and is
left unchanged otherwise.  The external `hashlib.sha256` digest is the
parameter `sha`. -/
def adminLoginStep (sha : String → String) (adminPassword pwd : String)
    (isAdmin : Bool) : Bool :=
  if !(adminPassword == "") && (sha pwd == sha adminPassword) then true
  else isAdmin

/- ===== Theorems ===== -/

/-- Helper: dropping while a predicate holds skips a block that satisfies
it everywhere. -/
theorem dropWhile_append_all {p : Char → Bool} :
    ∀ (l r : List Char), l.all p = true →
      List.dropWhile p (l ++ r) = List.dropWhile p r := by
  intro l r h
  induction l with
  | nil => rfl
  | cons a as ih =>
      simp only [List.all_cons, Bool.and_eq_true] at h
      simp [List.dropWhile_cons, h.1, ih h.2]

/-- C1: the rule engine's score is exactly the clamped
`0.8 - 0.3·[violations ≠ ∅] - 0.1·|cautions|`; it always lies in
[0, 1]; and a text matching no disallowed and no caution pattern yields
exactly 0.8 with both lists empty. -/
theorem rule_check_score_spec (text : String) :
    (ruleCheck text).score =
      max 0 (min 1 (0.8 - 0.3 * (if (ruleCheck text).violations = [] then 0 else 1)
        - 0.1 * ((ruleCheck text).cautions.length : ℚ))) ∧
    0 ≤ (ruleCheck text).score ∧ (ruleCheck text).score ≤ 1 ∧
    ((∀ pr ∈ DISALLOWED, reSearchCI pr.2 text = false) →
     (∀ pr ∈ CAUTION, reSearchCI pr.2 text = false) →
     ruleCheck text = ⟨0.8, [], []⟩) := by
  refine ⟨rfl, le_max_left 0 _, max_le zero_le_one (min_le_left 1 _), ?_⟩
  intro h1 h2
  have hv : violationsOf text = [] := by
    unfold violationsOf
    rw [List.filter_eq_nil_iff.mpr (fun pr hpr => by simp [h1 pr hpr])]
    rfl
  have hc : cautionsOf text = [] := by
    unfold cautionsOf
    rw [List.filter_eq_nil_iff.mpr (fun pr hpr => by simp [h2 pr hpr])]
    rfl
  unfold ruleCheck
  rw [hv, hc]
  congr 1
  norm_num

/-- Witness for C1 at a concrete clean text. -/
theorem rule_check_score_spec_w :
    ruleCheck "주간 리마인더 메일 발송" = ⟨0.8, [], []⟩ :=
  (rule_check_score_spec "주간 리마인더 메일 발송").2.2.2 (by decide) (by decide)

/-- C8: each output list of the rule engine is duplicate-free, each is a
subsequence of its table's display names (so table order is preserved and
a category appears at most once however often its pattern occurs), and
the whole result depends only on which patterns match — so repeating a
matching substring in the text cannot change the result. -/
theorem rule_check_order_idem (text : String) :
    (ruleCheck text).violations.Nodup ∧
    (ruleCheck text).cautions.Nodup ∧
    List.Sublist (ruleCheck text).violations (DISALLOWED.map Prod.fst) ∧
    List.Sublist (ruleCheck text).cautions (CAUTION.map Prod.fst) ∧
    ∀ text' : String,
      (∀ pr ∈ DISALLOWED, reSearchCI pr.2 text = reSearchCI pr.2 text') →
      (∀ pr ∈ CAUTION, reSearchCI pr.2 text = reSearchCI pr.2 text') →
      ruleCheck text = ruleCheck text' := by
  have hsubV : List.Sublist (violationsOf text) (DISALLOWED.map Prod.fst) :=
    List.Sublist.map Prod.fst (List.filter_sublist _)
  have hsubC : List.Sublist (cautionsOf text) (CAUTION.map Prod.fst) :=
    List.Sublist.map Prod.fst (List.filter_sublist _)
  refine ⟨hsubV.nodup (by decide), hsubC.nodup (by decide), hsubV, hsubC, ?_⟩
  intro t' h1 h2
  have e1 : violationsOf text = violationsOf t' := by
    unfold violationsOf
    rw [List.filter_congr (fun pr hpr => by rw [h1 pr hpr])]
  have e2 : cautionsOf text = cautionsOf t' := by
    unfold cautionsOf
    rw [List.filter_congr (fun pr hpr => by rw [h2 pr hpr])]
  unfold ruleCheck
  rw [e1, e2]

/-- Witness for C8: a text repeating a caution phrase evaluates exactly
like the text containing it once. -/
theorem rule_check_order_idem_w :
    ruleCheck "카카오 연동 그리고 또 카카오 연동" = ruleCheck "카카오" :=
  (rule_check_order_idem "카카오 연동 그리고 또 카카오 연동").2.2.2.2 "카카오"
    (by decide) (by decide)

/-- C4 counterexample: a submission with non-empty title, users and
description but empty features satisfies the claimed admission condition
(title and primary_users non-empty plus at least one of description and
features non-empty), yet the code rejects it and runs no pipeline
stage. -/
theorem do_generate_validation_cex :
    doGenerateStep "학급 공지 자동화" "담임교사" "설명만 작성함" "" = none ∧
    ("학급 공지 자동화" ≠ "" ∧ "담임교사" ≠ "" ∧
      ("설명만 작성함" ≠ "" ∨ ("" : String) ≠ "")) := by
  exact ⟨rfl, by decide, by decide, Or.inl (by decide)⟩

/-- C4 amended: a submission proceeds past validation into the pipeline
iff title, primary_users and features are all non-empty — description is
never consulted — and when it proceeds, the first pipeline stage is the
rule check on the assembled idea block. -/
theorem do_generate_requires_features (t u d f : String) :
    (doGenerateStep t u d f).isSome = (!(t == "") && !(u == "") && !(f == "")) ∧
    ((doGenerateStep t u d f).isSome = true →
      doGenerateStep t u d f = some (ruleCheck (ideaBlock t d u f))) := by
  constructor
  · by_cases h1 : t = "" <;> by_cases h2 : u = "" <;> by_cases h3 : f = "" <;>
      simp [doGenerateStep, h1, h2, h3]
  · intro h
    by_cases hcond : t = "" || u = "" || f = ""
    · simp [doGenerateStep, hcond] at h
    · simp [doGenerateStep, hcond]

/-- Witness for C4's amended theorem: empty description is accepted. -/
theorem do_generate_requires_features_w :
    doGenerateStep "학급 공지 자동화" "담임교사" "" "주간 리마인더 발송" =
      some (ruleCheck (ideaBlock "학급 공지 자동화" "" "담임교사" "주간 리마인더 발송")) :=
  (do_generate_requires_features "학급 공지 자동화" "담임교사" "" "주간 리마인더 발송").2
    (by decide)

/-- C3 counterexample: a whitespace-only model reply is not rejected as
empty — the code checks falsiness before stripping — so the call
succeeds and returns the empty string. -/
theorem call_openai_whitespace_cex :
    (callOpenAI true (some (some " "))).1 = some "" ∧
    (" ").data.all pySpace = true := by
  exact ⟨rfl, rfl⟩

/-- C3 amended: with a configured client and a transport-level success,
the call fails with the empty-response error iff the returned content is
`None` or the empty string; any other content — whitespace-only included
— is returned stripped of surrounding whitespace. -/
theorem call_openai_empty_check (s : String) :
    ((callOpenAI true (some (some s))).1 = none ↔ s = "") ∧
    (s ≠ "" → (callOpenAI true (some (some s))).1 = some (pyStrip s)) ∧
    (callOpenAI true (some none)).1 = none := by
  refine ⟨?_, ?_, rfl⟩
  · by_cases h : s = "" <;> simp [callOpenAI, h]
  · intro h; simp [callOpenAI, h]

/-- Witness for C3's amended theorem. -/
theorem call_openai_empty_check_w :
    (callOpenAI true (some (some " 네 알겠습니다 "))).1 =
      some (pyStrip " 네 알겠습니다 ") :=
  (call_openai_empty_check " 네 알겠습니다 ").2.1 (by decide)

/-- C9: with no configured client, `_call_openai` returns the
not-configured failure having issued zero network requests, whatever the
network would have answered. -/
theorem call_openai_not_configured (transport : Option (Option String)) :
    callOpenAI false transport = (none, 0) := rfl

/-- C2 counterexample: on a reply whose brace-delimited substring exists
but is not valid JSON, both parse attempts fail, yet the code does not
report a parse error carrying the raw text — the second `json.loads`
raises inside the `except` handler and the exception escapes. -/
theorem parse_stage_fallback_cex :
    jsonParse "\x7boops\x7d" = none ∧
    braceSlice "\x7boops\x7d".data = some "\x7boops\x7d".data ∧
    parseStage "\x7boops\x7d" = ParseOutcome.uncaught "\x7boops\x7d" ∧
    ∀ s, parseStage "\x7boops\x7d" ≠ ParseOutcome.unparseableReported s := by
  refine ⟨rfl, rfl, rfl, ?_⟩
  intro s h
  exact ParseOutcome.noConfusion
    (show ParseOutcome.uncaught "\x7boops\x7d" = ParseOutcome.unparseableReported s from h)

/-- C2 amended: the parse step first runs `json.loads` on the whole
reply; only on failure does it extract the substring from the first
opening brace to the last closing brace and parse that; when that
fallback substring does not exist the parse error is reported with the
raw text verbatim, but when the fallback substring exists and fails to
parse, the failure propagates as an uncaught exception and the raw text
is not surfaced. -/
theorem parse_stage_two_attempts (raw : String) :
    (∀ d, jsonParse raw = some d → parseStage raw = ParseOutcome.parsed d) ∧
    (jsonParse raw = none → braceSlice raw.data = none →
      parseStage raw = ParseOutcome.unparseableReported raw) ∧
    (∀ sub, jsonParse raw = none → braceSlice raw.data = some sub →
      (∀ d, jsonParse ⟨sub⟩ = some d → parseStage raw = ParseOutcome.parsed d) ∧
      (jsonParse ⟨sub⟩ = none → parseStage raw = ParseOutcome.uncaught raw)) := by
  refine ⟨?_, ?_, ?_⟩
  · intro d h; simp [parseStage, h]
  · intro h1 h2; simp [parseStage, h1, h2]
  · intro sub h1 h2
    constructor
    · intro d h3; simp [parseStage, h1, h2, h3]
    · intro h3; simp [parseStage, h1, h2, h3]

/-- Witness for C2's amended theorem: a reply with no brace pair reaches
the reported, raw-carrying error. -/
theorem parse_stage_two_attempts_w :
    parseStage "no json here" = ParseOutcome.unparseableReported "no json here" :=
  (parse_stage_two_attempts "no json here").2.1 rfl rfl

/-- C5 counterexample: the successful parse of `"\x7b\x7d"` is stored as
the bare empty object — the parser substitutes no default for the absent
`feasibility` key (nor for any other), so the stored report does not
contain every top-level key. -/
theorem parser_no_default_filling_cex :
    parseStage "\x7b\x7d" = ParseOutcome.parsed (JVal.jobj []) ∧
    (match parseStage "\x7b\x7d" with
     | ParseOutcome.parsed (JVal.jobj kvs) => dictLookup kvs "feasibility"
     | _ => some JVal.jnull) = none := by
  exact ⟨rfl, rfl⟩

/-- C5 amended: the parser stores whatever `json.loads` produced, without
normalization and without erroring on absent keys (it fails only on
invalid JSON syntax); the documented defaults (0.0, empty string, empty
list, empty object) are substituted by the renderer's accessors at each
access, so the rendering of a report missing any top-level key still
observes the default. -/
theorem renderer_supplies_defaults (raw : String) (v : JVal)
    (kvs : List (String × JVal)) :
    (jsonParse raw = some v → parseStage raw = ParseOutcome.parsed v) ∧
    (dictLookup kvs "feasibility" = none →
      rendererScore (JVal.jobj kvs) = some 0 ∧
      rendererSummary (JVal.jobj kvs) = some (JVal.jstr "")) ∧
    (dictLookup kvs "adjustments" = none →
      rendererAdjustments (JVal.jobj kvs) = some (JVal.jarr [])) ∧
    (dictLookup kvs "next_steps" = none →
      rendererNextSteps (JVal.jobj kvs) = some (JVal.jarr [])) ∧
    (dictLookup kvs "blueprint" = none →
      rendererBlueprint (JVal.jobj kvs) = some (JVal.jobj [])) ∧
    (dictLookup kvs "gas_snippets" = none →
      rendererGasSnippets (JVal.jobj kvs) = some (JVal.jarr [])) ∧
    (dictLookup kvs "risks" = none →
      rendererRisks (JVal.jobj kvs) = some (JVal.jarr [])) ∧
    (dictLookup kvs "prd" = none →
      rendererPrd (JVal.jobj kvs) = some (JVal.jstr "")) := by
  refine ⟨?_, ?_, ?_, ?_, ?_, ?_, ?_, ?_⟩
  · intro h; simp [parseStage, h]
  · intro h
    constructor
    · simp [rendererScore, pyDictGet, h, dictLookup, pyFloat]
    · simp [rendererSummary, pyDictGet, h, dictLookup]
  · intro h; simp [rendererAdjustments, pyDictGet, h]
  · intro h; simp [rendererNextSteps, pyDictGet, h]
  · intro h; simp [rendererBlueprint, pyDictGet, h]
  · intro h; simp [rendererGasSnippets, pyDictGet, h]
  · intro h; simp [rendererRisks, pyDictGet, h]
  · intro h; simp [rendererPrd, pyDictGet, h]

/-- Witness for C5's amended theorem: a key-free parse is stored as-is
and the renderer's score accessor still yields the default 0.0. -/
theorem renderer_supplies_defaults_w :
    parseStage "[]" = ParseOutcome.parsed (JVal.jarr []) ∧
    rendererScore (JVal.jobj []) = some 0 := by
  have h := renderer_supplies_defaults "[]" (JVal.jarr []) []
  exact ⟨h.1 rfl, (h.2.1 rfl).1⟩

/-- Helper: `dropWhile` is the identity when the head fails the
predicate. -/
theorem dropWhile_cons_neg {α : Type} {p : α → Bool} (a : α) (l : List α)
    (h : p a = false) : List.dropWhile p (a :: l) = a :: l := by
  simp [List.dropWhile_cons, h]

/-- Helper: `str.strip()` is the identity on a string whose two ends are
not whitespace. -/
theorem pyStripList_no_strip (a b : Char) (mid : List Char)
    (ha : pySpace a = false) (hb : pySpace b = false) :
    pyStripList (a :: (mid ++ [b])) = a :: (mid ++ [b]) := by
  unfold pyStripList
  rw [dropWhile_cons_neg _ _ ha]
  have hrev : (a :: (mid ++ [b])).reverse = b :: (mid.reverse ++ [a]) := by simp
  rw [hrev, dropWhile_cons_neg _ _ hb, ← hrev, List.reverse_reverse]

/-- C6 counterexample: a fence-free snippet surrounded by whitespace is
not returned unchanged — the code first strips the whole snippet. -/
theorem fence_strip_whitespace_cex :
    stripFences "  plain code  " = "plain code" ∧
    ("  plain code  " : String) ≠ "plain code" := by
  exact ⟨rfl, by decide⟩

/-- C6 amended: snippet code is first stripped of surrounding whitespace;
then exactly one leading fence line (three backticks plus an optional
ASCII-letter language tag and a newline) and one trailing fence line are
removed, the interior — newlines, further fence-like lines included —
untouched; a fence-free snippet with no surrounding whitespace (such as
`plain code`) is returned unchanged. -/
theorem fence_strip_behavior (tag body : String)
    (htag : tag.data.all isAsciiAlphaB = true) :
    stripFences ("```" ++ tag ++ "\n" ++ body ++ "\n```") = body ∧
    stripFences "plain code" = "plain code" := by
  refine ⟨?_, rfl⟩
  unfold stripFences
  have hdata : ("```" ++ tag ++ "\n" ++ body ++ "\n```").data
      = '`' :: (('`' :: '`' :: (tag.data ++ '\n' :: body.data ++ ['\n', '`', '`'])) ++ ['`']) := by
    simp [String.data_append]
  rw [hdata, pyStripList_no_strip _ _ _ (by decide) (by decide)]
  have hopen : fenceOpenStrip
      ('`' :: (('`' :: '`' :: (tag.data ++ '\n' :: body.data ++ ['\n', '`', '`'])) ++ ['`']))
      = body.data ++ ['\n', '`', '`', '`'] := by
    have hshape : '`' :: (('`' :: '`' :: (tag.data ++ '\n' :: body.data ++ ['\n', '`', '`'])) ++ ['`'])
        = '`' :: '`' :: '`' :: (tag.data ++ '\n' :: (body.data ++ ['\n', '`', '`', '`'])) := by
      simp
    rw [hshape]
    have hred : fenceOpenStrip
        ('`' :: '`' :: '`' :: (tag.data ++ '\n' :: (body.data ++ ['\n', '`', '`', '`'])))
        = (match List.dropWhile isAsciiAlphaB (tag.data ++ '\n' :: (body.data ++ ['\n', '`', '`', '`'])) with
           | '\n' :: b => b
           | _ => '`' :: '`' :: '`' :: (tag.data ++ '\n' :: (body.data ++ ['\n', '`', '`', '`']))) := rfl
    rw [hred, dropWhile_append_all _ _ htag, dropWhile_cons_neg _ _ (by decide)]
    rfl
  rw [hopen]
  have hclose : fenceCloseStrip (body.data ++ ['\n', '`', '`', '`']) = body.data := by
    unfold fenceCloseStrip
    rw [show (body.data ++ ['\n', '`', '`', '`']).reverse
        = '`' :: '`' :: '`' :: '\n' :: body.data.reverse by simp]
    simp
  rw [hclose]

/-- Witness for C6's amended theorem: exactly the spec's example. -/
theorem fence_strip_behavior_w :
    stripFences "```js\nfunction f()\x7b\x7d\n```" = "function f()\x7b\x7d" ∧
    stripFences "plain code" = "plain code" :=
  fence_strip_behavior "js" "function f()\x7b\x7d" (by decide)

/-- C7 counterexample: for a non-PDF file, an invalid byte is silently
dropped by the ignoring UTF-8 decode — nothing is substituted in its
place (in particular no U+FFFD replacement character), and the cp949 path
is not what produced the result. -/
theorem decode_drops_not_substitutes_cex :
    decodeUtf8Ignore [255, 97] = "a" ∧
    decodeUtf8Ignore [255, 97] ≠ String.mk ['�', 'a'] := by
  exact ⟨rfl, by decide⟩

/-- C7 amended: for a file whose lower-cased name does not end in
`.pdf`, the bytes are decoded as UTF-8 with `errors="ignore"` — a decode
that always succeeds, so the cp949 fallback branch is dead code — and an
invalid byte is dropped from the output rather than substituted, while
valid sequences (here, the ASCII case) decode normally. -/
theorem read_file_decode_ignore (pe : List Nat → String) (name : String)
    (b : Nat) (tail : List Nat) :
    (endsB (toLowerList name.data) ".pdf".data = false →
      readFileToText pe name tail = decodeUtf8Ignore tail) ∧
    readFileToTextNonPdf tail = decodeUtf8Ignore tail ∧
    decodeUtf8Ignore (255 :: tail) = decodeUtf8Ignore tail ∧
    (b ≤ 127 → decodeUtf8Ignore (b :: tail) =
      String.mk (Char.ofNat b :: (decodeUtf8Ignore tail).data)) := by
  refine ⟨?_, rfl, ?_, ?_⟩
  · intro h
    simp [readFileToText, h, readFileToTextNonPdf, decodeUtf8IgnoreE]
  · show String.mk (utf8Go (255 :: tail).length (255 :: tail)) = _
    rw [List.length_cons]
    simp [utf8Go, decodeUtf8Ignore]
  · intro hb
    show String.mk (utf8Go (b :: tail).length (b :: tail)) = _
    rw [List.length_cons]
    simp [utf8Go, decodeUtf8Ignore, hb]

/-- Witness for C7's amended theorem at a concrete text file whose bytes
open with an invalid byte followed by ASCII `a`. -/
theorem read_file_decode_ignore_w :
    readFileToText (fun _ => "") "memo.txt" [255, 97] = decodeUtf8Ignore [255, 97] ∧
    decodeUtf8Ignore [97] = "a" := by
  constructor
  · exact (read_file_decode_ignore (fun _ => "") "memo.txt" 97 [255, 97]).1 (by decide)
  · have h := (read_file_decode_ignore (fun _ => "") "memo.txt" 97 []).2.2.2 (by decide)
    rw [h]
    rfl

/-- C10: the admin gate fails closed on unconfigured secrets — with an
empty `ADMIN_LINK_TOKEN` the link check rejects every query-parameter
value (string, list or otherwise, the empty string included), and with an
empty `ADMIN_PASSWORD` the login handler never raises `is_admin` to true,
whatever password is entered and whatever the hash function does. -/
theorem admin_gate_fails_closed (sha : String → String) (q : Option QueryVal)
    (pwd : String) :
    isAdminLink "" q = false ∧ adminLoginStep sha "" pwd false = false := by
  constructor
  · simp [isAdminLink]
  · simp [adminLoginStep]
